import Mathlib

/-!
Shallow embedding of `src/infrastructure/payment_gateways/platega.py`
(`PlategaGateway`, the Platega.io payment-gateway adapter) and proofs of
the claims of the specification about it.

Conventions of the embedding:
* Python exceptions become an `Except PyError` result.
* JSON objects relevant here carry only string values, so a parsed JSON
  body is an association list `List (String × String)`; `dict.get`
  becomes `List.lookup` (absent key = `none`).
* Python string falsiness (`if not s`) is `none` or the empty string.
* `uuid.UUID(str)` is modelled by `pyUUIDParse`, following the string handling of CPython `uuid.UUID.__init__`: drop every occurrence of
  `urn:` and `uuid:`, strip surrounding braces, remove hyphens, then
  require exactly 32 hexadecimal digits whose value is the UUID.
* `float(amount)` is represented symbolically by the decimal string it
  was applied to (`PyFloat.ofDecimalString`); no claim inspects the
  numeric value of the float.
-/

/-- Hexadecimal digit test, as accepted by CPython `int(s, 16)` on the
32-character strings reaching it from `uuid.UUID`. -/
def isHexDigitChar (c : Char) : Bool :=
  c.isDigit || (('a' ≤ c) && (c ≤ 'f')) || (('A' ≤ c) && (c ≤ 'F'))

/-- Value of a hexadecimal digit. -/
def hexDigitVal (c : Char) : Nat :=
  if c.isDigit then c.toNat - '0'.toNat
  else if ('a' ≤ c) && (c ≤ 'f') then c.toNat - 'a'.toNat + 10
  else c.toNat - 'A'.toNat + 10

/-- If `pat` is a leading pattern of `s`, return the remainder of `s`. -/
def stripPat : List Char → List Char → Option (List Char)
  | [], s => some s
  | _ :: _, [] => none
  | p :: ps, c :: cs => if p = c then stripPat ps cs else none

/-- Fuel-indexed worker for `replaceAll` (leftmost, non-overlapping
occurrences, as Python `str.replace`). The fuel is the length of the
subject, which suffices for a non-empty pattern. -/
def replaceFuel (pat rep : List Char) : Nat → List Char → List Char
  | 0, s => s
  | _ + 1, [] => []
  | fuel + 1, c :: cs =>
    match stripPat pat (c :: cs) with
    | some rest => rep ++ replaceFuel pat rep fuel rest
    | none => c :: replaceFuel pat rep fuel cs

/-- Python `s.replace(pat, rep)` for a non-empty `pat`. -/
def replaceAll (pat rep s : List Char) : List Char :=
  replaceFuel pat rep s.length s

/-- Python `s.strip(chars)` restricted to the brace characters the call site passes:
remove any run of braces from both ends. -/
def stripBraces (s : List Char) : List Char :=
  ((s.dropWhile fun c => c = '{' || c = '}').reverse.dropWhile
    fun c => c = '{' || c = '}').reverse

/-- UUIDs are represented by their 128-bit integer value. -/
abbrev UUID := Nat

/-- CPython `uuid.UUID(hex_string)` string path: remove `urn:` and
`uuid:`, strip braces, drop hyphens, then require 32 hex digits;
`none` models the `ValueError` it raises otherwise. -/
def pyUUIDParse (s : String) : Option UUID :=
  let h := replaceAll ("uuid:".toList) [] (replaceAll ("urn:".toList) [] s.toList)
  let h := (stripBraces h).filter fun c => c ≠ '-'
  if h.length = 32 && h.all isHexDigitChar then
    some (h.foldl (fun a c => a * 16 + hexDigitVal c) 0)
  else
    none

/-- Modelled from the spec: the internal transaction-status enumeration
(`src.core.enums.TransactionStatus`, defined outside this file); the spec
names COMPLETED, CANCELED and PENDING among its members. -/
inductive TransactionStatus where
  | COMPLETED
  | CANCELED
  | PENDING
  deriving DecidableEq, Repr

/-- The Python exceptions raised by the adapter, with their messages. -/
inductive PyError where
  | typeError (msg : String)
  | valueError (msg : String)
  | permissionError (msg : String)
  | keyError (msg : String)
  | jsonDecodeError (msg : String)
  | httpStatusError (statusCode : Nat) (body : String)
  deriving DecidableEq, Repr

/-- Symbolic representation of `float(amount)`: the value is tagged by its decimal-string
operand; no claim inspects the numeric value. -/
inductive PyFloat where
  | ofDecimalString (s : String)
  deriving DecidableEq, Repr

/-- Modelled from the spec: the polymorphic gateway-settings DTO family
(`PlategaGatewaySettingsDto` among sibling variants), represented as a
sum type per spec §9; the Platega variant carries `merchant_id` and the
`api_secret` secret string. `otherGateway` stands for any sibling
variant, tagged with its class name. -/
inductive GatewaySettingsDto where
  | platega (merchant_id : String) (api_secret : String)
  | otherGateway (typeName : String)
  deriving DecidableEq, Repr

/-- Modelled from the spec: the gateway record handed to the adapter
constructor (`PaymentGatewayDto`), carrying the settings variant and the
currency whose `.value` string is used in payloads. -/
structure PaymentGatewayDto where
  settings : GatewaySettingsDto
  currency : String
  deriving DecidableEq, Repr

/-- The constructed adapter state: the credentials bound at construction
time and the headers of the HTTP client created in `__init__`. -/
structure PlategaGatewayState where
  merchant_id : String
  api_secret : String
  currency : String
  client_headers : List (String × String)
  deriving DecidableEq, Repr

/-- Constant `PlategaGateway.API_BASE`. -/
def API_BASE : String := "https://app.platega.io"

/-- Constant `PlategaGateway.DEFAULT_PAYMENT_METHOD` (2 = SBP QR). -/
def DEFAULT_PAYMENT_METHOD : Nat := 2

/-- Embeds `PlategaGateway.__init__`: reject a non-Platega settings variant with
`TypeError`, then reject an empty `merchant_id` or `api_secret` with
`ValueError`, then create the HTTP client with the three fixed headers. -/
def plategaInit (gateway : PaymentGatewayDto) : Except PyError PlategaGatewayState :=
  match gateway.settings with
  | GatewaySettingsDto.otherGateway typeName =>
      Except.error (PyError.typeError
        ("Invalid settings type: expected PlategaGatewaySettingsDto, got " ++ typeName))
  | GatewaySettingsDto.platega merchant_id api_secret =>
      if merchant_id == "" || api_secret == "" then
        Except.error (PyError.valueError
          ("Platega gateway requires merchant_id and api_secret to be configured"))
      else
        Except.ok
          { merchant_id := merchant_id
            api_secret := api_secret
            currency := gateway.currency
            client_headers :=
              [("X-MerchantId", merchant_id),
               ("X-Secret", api_secret),
               ("Content-Type", "application/json")] }

/-- An inbound webhook request: its headers and its JSON body.  The body
is stored already parsed (per the spec, `_get_webhook_data`, defined in the
base class outside this file, parses the JSON body of the request). -/
structure WebhookRequest where
  headers : List (String × String)
  body : List (String × String)
  deriving DecidableEq, Repr

/-- Which branch of `_verify_webhook_headers` decided the outcome:
`missingHeaders` is the warning-level early return (no value comparison),
`mismatch` is the critical-level return recording `merchant_id_valid` and
`secret_valid`, and `ok` is success. -/
inductive VerifyOutcome where
  | missingHeaders
  | mismatch (merchant_id_valid : Bool) (secret_valid : Bool)
  | ok
  deriving DecidableEq, Repr

/-- Python string falsiness of a `dict.get`/`headers.get` result:
`None` or the empty string. -/
def pyOptStrFalsy : Option String → Bool
  | none => true
  | some s => s == ""

/-- Embeds `PlategaGateway._verify_webhook_headers`, refined to report which
branch returned: missing (falsy) headers return early before any
comparison; otherwise each header is compared to the configured value
and any mismatch fails. -/
def verifyWebhookHeadersOutcome (gw : PlategaGatewayState) (request : WebhookRequest) :
    VerifyOutcome :=
  let received_merchant_id := request.headers.lookup "X-MerchantId"
  let received_secret := request.headers.lookup "X-Secret"
  if pyOptStrFalsy received_merchant_id || pyOptStrFalsy received_secret then
    VerifyOutcome.missingHeaders
  else
    let merchant_id_valid := received_merchant_id == some gw.merchant_id
    let secret_valid := received_secret == some gw.api_secret
    if !merchant_id_valid || !secret_valid then
      VerifyOutcome.mismatch merchant_id_valid secret_valid
    else
      VerifyOutcome.ok

/-- Embeds `PlategaGateway._verify_webhook_headers` as the boolean the source
returns. -/
def verify_webhook_headers (gw : PlategaGatewayState) (request : WebhookRequest) : Bool :=
  match verifyWebhookHeadersOutcome gw request with
  | VerifyOutcome.ok => true
  | _ => false

/-- Python `str()` of an optional string, as an f-string renders the
`status` value: `None` when absent, the string itself otherwise. -/
def pyStrOfOption : Option String → String
  | none => "None"
  | some s => s

/-- Embeds `PlategaGateway.handle_webhook`: verify headers (else
`PermissionError`), extract a non-falsy `id` (else `ValueError`), read
`status`, parse the id as a UUID (`ValueError` on failure), then map
`CONFIRMED`/`CANCELED` and reject `PENDING` and everything else with
`ValueError`. -/
def handle_webhook (gw : PlategaGatewayState) (request : WebhookRequest) :
    Except PyError (UUID × TransactionStatus) :=
  if !(verify_webhook_headers gw request) then
    Except.error (PyError.permissionError
      ("Platega webhook verification failed: invalid headers"))
  else
    let webhook_data := request.body
    match webhook_data.lookup "id" with
    | none =>
        Except.error (PyError.valueError
          ("Required field \x27id\x27 is missing in webhook payload"))
    | some transaction_id_str =>
      if transaction_id_str == "" then
        Except.error (PyError.valueError
          ("Required field \x27id\x27 is missing in webhook payload"))
      else
        let status := webhook_data.lookup "status"
        match pyUUIDParse transaction_id_str with
        | none =>
            Except.error (PyError.valueError
              ("badly formed hexadecimal UUID string"))
        | some transaction_id =>
          match status with
          | some ("CONFIRMED") =>
              Except.ok (transaction_id, TransactionStatus.COMPLETED)
          | some ("CANCELED") =>
              Except.ok (transaction_id, TransactionStatus.CANCELED)
          | some ("PENDING") =>
              Except.error (PyError.valueError
                ("Unexpected PENDING status in webhook. Transaction ID: "
                  ++ transaction_id_str))
          | _ =>
              Except.error (PyError.valueError
                ("Unsupported status: " ++ pyStrOfOption status))

/-- DTO `PaymentResult`: provider-assigned transaction id and the payer
redirect URL. -/
structure PaymentResult where
  id : UUID
  url : String
  deriving DecidableEq, Repr

/-- Embeds `PlategaGateway._get_payment_data`: require a non-falsy
`transactionId` and a non-falsy `redirect` (each absence is a
`KeyError`), then parse the transaction id as a UUID and return the
redirect URL verbatim. -/
def get_payment_data (data : List (String × String)) (_order_id : String) :
    Except PyError PaymentResult :=
  match data.lookup "transactionId" with
  | none =>
      Except.error (PyError.keyError
        ("Invalid response from Platega API: missing \x27transactionId\x27"))
  | some transaction_id_str =>
    if transaction_id_str == "" then
      Except.error (PyError.keyError
        ("Invalid response from Platega API: missing \x27transactionId\x27"))
    else
      match data.lookup "redirect" with
      | none =>
          Except.error (PyError.keyError
            ("Invalid response from Platega API: missing \x27redirect\x27"))
      | some redirect_url =>
        if redirect_url == "" then
          Except.error (PyError.keyError
            ("Invalid response from Platega API: missing \x27redirect\x27"))
        else
          match pyUUIDParse transaction_id_str with
          | none =>
              Except.error (PyError.valueError
                ("badly formed hexadecimal UUID string"))
          | some tid => Except.ok { id := tid, url := redirect_url }

/-- The `paymentDetails` sub-object of the outbound payload. -/
structure PaymentDetails where
  amount : PyFloat
  currency : String
  deriving DecidableEq, Repr

/-- The outbound transaction-creation payload; the field `returnUrl`
models the JSON key `return` (a Lean keyword). -/
structure PaymentPayload where
  paymentMethod : Nat
  paymentDetails : PaymentDetails
  description : String
  returnUrl : String
  failedUrl : String
  payload : String
  deriving DecidableEq, Repr

/-- Embeds `PlategaGateway._create_payment_payload`; `return_url` is the value
the collaborator `_get_bot_redirect_url` returned, passed explicitly. -/
def create_payment_payload (gw : PlategaGatewayState) (return_url : String)
    (amount : String) (order_id : String) (description : String) : PaymentPayload :=
  { paymentMethod := DEFAULT_PAYMENT_METHOD
    paymentDetails :=
      { amount := PyFloat.ofDecimalString amount
        currency := gw.currency }
    description := description
    returnUrl := return_url
    failedUrl := return_url
    payload := order_id }

instance {ε α : Type} [DecidableEq ε] [DecidableEq α] : DecidableEq (Except ε α)
  | Except.error a, Except.error b =>
    if h : a = b then isTrue (by rw [h]) else isFalse (by intro hh; cases hh; exact h rfl)
  | Except.error _, Except.ok _ => isFalse (by intro h; cases h)
  | Except.ok _, Except.error _ => isFalse (by intro h; cases h)
  | Except.ok a, Except.ok b =>
    if h : a = b then isTrue (by rw [h]) else isFalse (by intro hh; cases hh; exact h rfl)

/-- The HTTP response of the provider to the `transaction/process` POST:
status code, the JSON parse of its content (`Except` models
`orjson.JSONDecodeError`), and its text body. -/
structure ProviderResponse where
  statusCode : Nat
  content : Except String (List (String × String))
  text : String
  deriving DecidableEq, Repr

/-- Embeds `PlategaGateway.handle_create_payment` given the response of the provider:
build the payload, raise `HTTPStatusError` on a non-2xx status
(`httpx.Response.raise_for_status`), decode the body, then delegate to
`_get_payment_data`; the `except` clauses only log and re-raise, so
every error propagates unchanged. `order_id` is the `uuid.uuid4()`
correlation value, passed explicitly. -/
def handle_create_payment (gw : PlategaGatewayState) (return_url : String)
    (amount : String) (details : String) (order_id : String)
    (response : ProviderResponse) : Except PyError PaymentResult :=
  let _payload := create_payment_payload gw return_url amount order_id details
  if !(200 ≤ response.statusCode && response.statusCode < 300) then
    Except.error (PyError.httpStatusError response.statusCode response.text)
  else
    match response.content with
    | Except.error e => Except.error (PyError.jsonDecodeError e)
    | Except.ok data => get_payment_data data order_id

/-! ### Concrete fixtures used by the witness theorems -/

/-- A well-formed UUID string. -/
def uuidStr : String := "123e4567-e89b-12d3-a456-426614174000"

/-- The integer value of `uuidStr`. -/
def uuidVal : UUID := 0x123e4567e89b12d3a456426614174000

/-- A constructed adapter with non-empty credentials, as `__init__`
produces it. -/
def gwTest : PlategaGatewayState :=
  { merchant_id := "merchant-1"
    api_secret := "secret-1"
    currency := "RUB"
    client_headers :=
      [("X-MerchantId", "merchant-1"),
       ("X-Secret", "secret-1"),
       ("Content-Type", "application/json")] }

/-- Correct authentication headers for `gwTest`. -/
def okHeaders : List (String × String) :=
  [("X-MerchantId", "merchant-1"), ("X-Secret", "secret-1")]

/-- A webhook request with correct headers, a valid id and a given
status value. -/
def reqWithStatus (st : String) : WebhookRequest :=
  { headers := okHeaders, body := [("id", uuidStr), ("status", st)] }

/-! ### Helper lemmas -/

/-- The empty string is not a well-formed UUID. -/
theorem pyUUIDParse_empty : pyUUIDParse "" = none := by decide

/-- A string that parses as a UUID is non-empty. -/
theorem pyUUIDParse_some_ne_empty {u : String} {tid : UUID}
    (h : pyUUIDParse u = some tid) : (u == "") = false := by
  rcases eq_or_ne u "" with rfl | hne
  · rw [pyUUIDParse_empty] at h
    cases h
  · exact beq_eq_false_iff_ne.mpr hne

/-- Matching, non-empty headers pass `_verify_webhook_headers`. -/
theorem verify_webhook_headers_of_match (gw : PlategaGatewayState) (req : WebhookRequest)
    (hm : req.headers.lookup "X-MerchantId" = some gw.merchant_id)
    (hs : req.headers.lookup "X-Secret" = some gw.api_secret)
    (hm0 : gw.merchant_id ≠ "") (hs0 : gw.api_secret ≠ "") :
    verify_webhook_headers gw req = true := by
  unfold verify_webhook_headers verifyWebhookHeadersOutcome
  rw [hm, hs]
  simp [pyOptStrFalsy, hm0, hs0]

/-- Verification succeeds exactly when both headers are present and
equal the configured credentials, provided the configured credentials
are non-empty (guaranteed by construction). -/
theorem verify_webhook_headers_true_iff (gw : PlategaGatewayState) (req : WebhookRequest)
    (hm0 : gw.merchant_id ≠ "") (hs0 : gw.api_secret ≠ "") :
    verify_webhook_headers gw req = true ↔
      (req.headers.lookup "X-MerchantId" = some gw.merchant_id ∧
       req.headers.lookup "X-Secret" = some gw.api_secret) := by
  simp only [verify_webhook_headers, verifyWebhookHeadersOutcome]
  cases hm : req.headers.lookup "X-MerchantId" with
  | none => simp [pyOptStrFalsy]
  | some m =>
    cases hs : req.headers.lookup "X-Secret" with
    | none => simp [pyOptStrFalsy]
    | some s =>
      by_cases hme : m = ""
      · subst hme
        simp [pyOptStrFalsy, Ne.symm hm0]
      · by_cases hse : s = ""
        · subst hse
          simp [pyOptStrFalsy, hme, Ne.symm hs0]
        · by_cases hmv : m = gw.merchant_id
          · by_cases hsv : s = gw.api_secret
            · subst hmv hsv
              simp [pyOptStrFalsy, hme, hse]
            · simp [pyOptStrFalsy, hme, hse, hmv, hsv, hm0, hs0]
          · simp [pyOptStrFalsy, hme, hse, hmv, hm0, hs0]

/-- A verified webhook never raises `PermissionError`: past the header
check every failure is a `ValueError`. -/
theorem handle_webhook_no_permission_error (gw : PlategaGatewayState) (req : WebhookRequest)
    (hv : verify_webhook_headers gw req = true) (msg : String) :
    handle_webhook gw req ≠ Except.error (PyError.permissionError msg) := by
  unfold handle_webhook
  rw [hv]
  intro h
  simp only [Bool.not_true, Bool.false_eq_true, if_false] at h
  repeat' split at h
  all_goals simp_all

/-- Evaluation of `handle_webhook` past verification and a present,
non-empty `id`: the UUID parse happens next, and only then the status
match. -/
theorem handle_webhook_verified_eval (gw : PlategaGatewayState) (req : WebhookRequest)
    (hv : verify_webhook_headers gw req = true) (u : String)
    (hid : req.body.lookup "id" = some u) (hue : u ≠ "") :
    handle_webhook gw req =
      (match pyUUIDParse u with
       | none =>
           Except.error (PyError.valueError ("badly formed hexadecimal UUID string"))
       | some tid =>
         match req.body.lookup "status" with
         | some ("CONFIRMED") => Except.ok (tid, TransactionStatus.COMPLETED)
         | some ("CANCELED") => Except.ok (tid, TransactionStatus.CANCELED)
         | some ("PENDING") =>
             Except.error (PyError.valueError
               ("Unexpected PENDING status in webhook. Transaction ID: " ++ u))
         | _ =>
             Except.error (PyError.valueError
               ("Unsupported status: " ++ pyStrOfOption (req.body.lookup "status")))) := by
  unfold handle_webhook
  rw [hv]
  simp only [Bool.not_true, Bool.false_eq_true, if_false]
  rw [hid]
  simp [beq_eq_false_iff_ne.mpr hue]

/-! ### Claim theorems -/

/-- C1: with headers equal to the configured (non-empty, as construction
guarantees) credentials and a body carrying a UUID `id`, status
`CONFIRMED` yields `(id, COMPLETED)` and status `CANCELED` yields
`(id, CANCELED)`; and whenever `handle_webhook` returns at all, the
returned status is COMPLETED or CANCELED. -/
theorem webhook_status_mapping_spec :
    (∀ (gw : PlategaGatewayState) (req : WebhookRequest) (u : String) (tid : UUID),
      gw.merchant_id ≠ "" → gw.api_secret ≠ "" →
      req.headers.lookup "X-MerchantId" = some gw.merchant_id →
      req.headers.lookup "X-Secret" = some gw.api_secret →
      req.body.lookup "id" = some u → pyUUIDParse u = some tid →
      req.body.lookup "status" = some ("CONFIRMED") →
      handle_webhook gw req = Except.ok (tid, TransactionStatus.COMPLETED)) ∧
    (∀ (gw : PlategaGatewayState) (req : WebhookRequest) (u : String) (tid : UUID),
      gw.merchant_id ≠ "" → gw.api_secret ≠ "" →
      req.headers.lookup "X-MerchantId" = some gw.merchant_id →
      req.headers.lookup "X-Secret" = some gw.api_secret →
      req.body.lookup "id" = some u → pyUUIDParse u = some tid →
      req.body.lookup "status" = some ("CANCELED") →
      handle_webhook gw req = Except.ok (tid, TransactionStatus.CANCELED)) ∧
    (∀ (gw : PlategaGatewayState) (req : WebhookRequest) (tid : UUID)
       (st : TransactionStatus),
      handle_webhook gw req = Except.ok (tid, st) →
      st = TransactionStatus.COMPLETED ∨ st = TransactionStatus.CANCELED) := by
  refine ⟨?_, ?_, ?_⟩
  · intro gw req u tid hm0 hs0 hm hs hid hp hst
    have hv := verify_webhook_headers_of_match gw req hm hs hm0 hs0
    unfold handle_webhook
    rw [hv]
    simp only [Bool.not_true, Bool.false_eq_true, if_false]
    rw [hid]
    simp [pyUUIDParse_some_ne_empty hp, hp, hst]
  · intro gw req u tid hm0 hs0 hm hs hid hp hst
    have hv := verify_webhook_headers_of_match gw req hm hs hm0 hs0
    unfold handle_webhook
    rw [hv]
    simp only [Bool.not_true, Bool.false_eq_true, if_false]
    rw [hid]
    simp [pyUUIDParse_some_ne_empty hp, hp, hst]
  · intro gw req tid st h
    unfold handle_webhook at h
    cases hv : verify_webhook_headers gw req with
    | false =>
      rw [hv] at h
      simp at h
    | true =>
      rw [hv] at h
      simp only [Bool.not_true, Bool.false_eq_true, if_false] at h
      repeat' split at h
      all_goals simp_all

/-- C1 witness: the theorem applied at concrete inputs. -/
theorem webhook_status_mapping_spec_witness :
    handle_webhook gwTest (reqWithStatus "CONFIRMED") =
      Except.ok (uuidVal, TransactionStatus.COMPLETED) ∧
    handle_webhook gwTest (reqWithStatus "CANCELED") =
      Except.ok (uuidVal, TransactionStatus.CANCELED) ∧
    (TransactionStatus.COMPLETED = TransactionStatus.COMPLETED ∨
      TransactionStatus.COMPLETED = TransactionStatus.CANCELED) := by
  have h1 := webhook_status_mapping_spec.1 gwTest (reqWithStatus "CONFIRMED") uuidStr uuidVal
    (by decide) (by decide) (by decide) (by decide) (by decide) (by decide) (by decide)
  have h2 := webhook_status_mapping_spec.2.1 gwTest (reqWithStatus "CANCELED") uuidStr uuidVal
    (by decide) (by decide) (by decide) (by decide) (by decide) (by decide) (by decide)
  exact ⟨h1, h2,
    webhook_status_mapping_spec.2.2 gwTest (reqWithStatus "CONFIRMED") uuidVal
      TransactionStatus.COMPLETED h1⟩

/-- C2: `handle_webhook` raises `PermissionError` iff header
verification fails; with the non-empty configured credentials that
construction guarantees, verification fails exactly unless both headers
are present and equal the configured values; an absent header takes the
warning-level early return before any value comparison; and a present
but mismatched `X-Secret` takes the critical-level mismatch return
(recording `secret_valid = false`) and fails verification regardless of
the `X-MerchantId` comparison. -/
theorem webhook_auth_spec :
    (∀ (gw : PlategaGatewayState) (req : WebhookRequest),
      handle_webhook gw req =
          Except.error (PyError.permissionError
            ("Platega webhook verification failed: invalid headers")) ↔
        verify_webhook_headers gw req = false) ∧
    (∀ (gw : PlategaGatewayState) (req : WebhookRequest),
      gw.merchant_id ≠ "" → gw.api_secret ≠ "" →
      (verify_webhook_headers gw req = false ↔
        ¬(req.headers.lookup "X-MerchantId" = some gw.merchant_id ∧
          req.headers.lookup "X-Secret" = some gw.api_secret))) ∧
    (∀ (gw : PlategaGatewayState) (req : WebhookRequest),
      req.headers.lookup "X-MerchantId" = none ∨ req.headers.lookup "X-Secret" = none →
      verifyWebhookHeadersOutcome gw req = VerifyOutcome.missingHeaders) ∧
    (∀ (gw : PlategaGatewayState) (req : WebhookRequest) (m s : String),
      req.headers.lookup "X-MerchantId" = some m → m ≠ "" →
      req.headers.lookup "X-Secret" = some s → s ≠ "" → s ≠ gw.api_secret →
      (∃ b, verifyWebhookHeadersOutcome gw req = VerifyOutcome.mismatch b false) ∧
      verify_webhook_headers gw req = false) := by
  refine ⟨?_, ?_, ?_, ?_⟩
  · intro gw req
    cases hv : verify_webhook_headers gw req with
    | false =>
      constructor
      · intro _
        rfl
      · intro _
        unfold handle_webhook
        rw [hv]
        simp
    | true =>
      constructor
      · intro h
        exact absurd h (handle_webhook_no_permission_error gw req hv _)
      · intro h
        simp at h
  · intro gw req hm0 hs0
    rw [← verify_webhook_headers_true_iff gw req hm0 hs0]
    cases hb : verify_webhook_headers gw req <;> simp
  · intro gw req h
    unfold verifyWebhookHeadersOutcome
    rcases h with h | h <;> rw [h] <;> simp [pyOptStrFalsy]
  · intro gw req m s hm hme hs hse hsv
    have hout : ∃ b, verifyWebhookHeadersOutcome gw req = VerifyOutcome.mismatch b false := by
      by_cases hmv : m = gw.merchant_id
      · subst hmv
        refine ⟨true, ?_⟩
        unfold verifyWebhookHeadersOutcome
        rw [hm, hs]
        simp [pyOptStrFalsy, hme, hse, hsv]
      · refine ⟨false, ?_⟩
        unfold verifyWebhookHeadersOutcome
        rw [hm, hs]
        simp [pyOptStrFalsy, hme, hse, hmv, hsv]
    obtain ⟨b, hb⟩ := hout
    have hfalse : verify_webhook_headers gw req = false := by
      unfold verify_webhook_headers
      rw [hb]
    exact ⟨⟨b, hb⟩, hfalse⟩

/-- C2 witness: the theorem applied at concrete inputs. -/
theorem webhook_auth_spec_witness :
    handle_webhook gwTest
        { headers := [("X-MerchantId", "merchant-1"), ("X-Secret", "wrong")],
          body := [("id", uuidStr), ("status", "CONFIRMED")] } =
      Except.error (PyError.permissionError
        ("Platega webhook verification failed: invalid headers")) ∧
    ¬(List.lookup "X-MerchantId"
        ([("X-MerchantId", "merchant-1"), ("X-Secret", "wrong")] : List (String × String)) =
          some gwTest.merchant_id ∧
      List.lookup "X-Secret"
        ([("X-MerchantId", "merchant-1"), ("X-Secret", "wrong")] : List (String × String)) =
          some gwTest.api_secret) ∧
    verifyWebhookHeadersOutcome gwTest { headers := [], body := [] } =
      VerifyOutcome.missingHeaders ∧
    (∃ b, verifyWebhookHeadersOutcome gwTest
        { headers := [("X-MerchantId", "merchant-1"), ("X-Secret", "wrong")],
          body := [("id", uuidStr), ("status", "CONFIRMED")] } =
        VerifyOutcome.mismatch b false) := by
  refine ⟨?_, ?_, ?_, ?_⟩
  · exact (webhook_auth_spec.1 gwTest _).mpr (by decide)
  · exact (webhook_auth_spec.2.1 gwTest
      { headers := [("X-MerchantId", "merchant-1"), ("X-Secret", "wrong")],
        body := [("id", uuidStr), ("status", "CONFIRMED")] }
      (by decide) (by decide)).mp (by decide)
  · exact webhook_auth_spec.2.2.1 gwTest { headers := [], body := [] } (Or.inl (by decide))
  · exact (webhook_auth_spec.2.2.2 gwTest
      { headers := [("X-MerchantId", "merchant-1"), ("X-Secret", "wrong")],
        body := [("id", uuidStr), ("status", "CONFIRMED")] }
      "merchant-1" "wrong" (by decide) (by decide) (by decide) (by decide) (by decide)).1

/-- C3: adapter construction fails with `TypeError` on a non-Platega
settings variant, with `ValueError` when `merchant_id` or `api_secret`
is empty, never partially completes (an error excludes any constructed
state, hence any HTTP client), the variant check precedes the
credential check (the `TypeError` branch holds for every sibling
variant, regardless of credentials), and construction succeeds exactly
on a Platega variant with both credentials non-empty. -/
theorem plategaInit_spec :
    (∀ (typeName c : String),
      plategaInit { settings := GatewaySettingsDto.otherGateway typeName, currency := c } =
        Except.error (PyError.typeError
          ("Invalid settings type: expected PlategaGatewaySettingsDto, got " ++ typeName))) ∧
    (∀ (m s c : String), m = "" ∨ s = "" →
      plategaInit { settings := GatewaySettingsDto.platega m s, currency := c } =
        Except.error (PyError.valueError
          ("Platega gateway requires merchant_id and api_secret to be configured"))) ∧
    (∀ (gw : PaymentGatewayDto) (e : PyError), plategaInit gw = Except.error e →
      ∀ (st : PlategaGatewayState), plategaInit gw ≠ Except.ok st) ∧
    (∀ (m s c : String), m ≠ "" → s ≠ "" →
      plategaInit { settings := GatewaySettingsDto.platega m s, currency := c } =
        Except.ok
          { merchant_id := m, api_secret := s, currency := c,
            client_headers :=
              [("X-MerchantId", m), ("X-Secret", s), ("Content-Type", "application/json")] }) := by
  refine ⟨fun typeName c => rfl, ?_, ?_, ?_⟩
  · intro m s c h
    unfold plategaInit
    rcases h with rfl | rfl <;> simp
  · intro gw e he st hok
    rw [he] at hok
    cases hok
  · intro m s c hm hs
    unfold plategaInit
    simp [hm, hs]

/-- C3 witness: the theorem applied at concrete inputs. -/
theorem plategaInit_spec_witness :
    plategaInit { settings := GatewaySettingsDto.otherGateway "CryptoGatewaySettingsDto",
                  currency := "RUB" } =
      Except.error (PyError.typeError
        ("Invalid settings type: expected PlategaGatewaySettingsDto, got CryptoGatewaySettingsDto")) ∧
    plategaInit { settings := GatewaySettingsDto.platega "" "secret-1", currency := "RUB" } =
      Except.error (PyError.valueError
        ("Platega gateway requires merchant_id and api_secret to be configured")) ∧
    plategaInit { settings := GatewaySettingsDto.platega "merchant-1" "secret-1",
                  currency := "RUB" } =
      Except.ok gwTest :=
  ⟨plategaInit_spec.1 "CryptoGatewaySettingsDto" "RUB",
   plategaInit_spec.2.1 "" "secret-1" "RUB" (Or.inl rfl),
   plategaInit_spec.2.2.2 "merchant-1" "secret-1" "RUB" (by decide) (by decide)⟩

/-- C8: the outbound transaction-creation payload has `paymentMethod`
equal to the constant 2, `paymentDetails` holding the
floating-point-converted amount and the configured currency, the given
description, the collaborator-supplied bot redirect URL in both
`return` and `failedUrl`, and the generated order id in `payload`. -/
theorem create_payment_payload_spec :
    ∀ (gw : PlategaGatewayState) (return_url amount order_id description : String),
      (create_payment_payload gw return_url amount order_id description).paymentMethod = 2 ∧
      (create_payment_payload gw return_url amount order_id description).paymentDetails =
        { amount := PyFloat.ofDecimalString amount, currency := gw.currency } ∧
      (create_payment_payload gw return_url amount order_id description).description =
        description ∧
      (create_payment_payload gw return_url amount order_id description).returnUrl =
        return_url ∧
      (create_payment_payload gw return_url amount order_id description).failedUrl =
        return_url ∧
      (create_payment_payload gw return_url amount order_id description).payload = order_id :=
  fun _ _ _ _ _ => ⟨rfl, rfl, rfl, rfl, rfl, rfl⟩

/-- C4: on a 2xx provider response whose body has a UUID-parsable
`transactionId` and a non-empty `redirect`, `create_payment` returns the
`PaymentResult` with exactly that parsed UUID as id and the `redirect`
string unmodified as url; the result is the same for every locally
generated `order_id`, which therefore never appears in it. -/
theorem create_payment_result_spec :
    ∀ (gw : PlategaGatewayState) (return_url amount details order_id : String)
      (resp : ProviderResponse) (data : List (String × String))
      (t : String) (tid : UUID) (r : String),
      200 ≤ resp.statusCode → resp.statusCode < 300 →
      resp.content = Except.ok data →
      data.lookup "transactionId" = some t → pyUUIDParse t = some tid →
      data.lookup "redirect" = some r → r ≠ "" →
      handle_create_payment gw return_url amount details order_id resp =
        Except.ok { id := tid, url := r } := by
  intro gw return_url amount details order_id resp data t tid r h1 h2 hc ht hp hr hrne
  unfold handle_create_payment
  rw [hc]
  simp only [h1, h2, decide_True, Bool.and_self, Bool.not_true, Bool.false_eq_true,
    if_false, decide_eq_true_eq]
  unfold get_payment_data
  rw [ht, hr]
  simp [pyUUIDParse_some_ne_empty hp, hp, beq_eq_false_iff_ne.mpr hrne, h1, h2]

/-- C4 witness: the theorem applied at concrete inputs. -/
theorem create_payment_result_spec_witness :
    handle_create_payment gwTest "https://t.me/bot" "10.00" "order" "order-1"
      { statusCode := 200,
        content := Except.ok [("transactionId", uuidStr), ("redirect", "https://pay.example/x")],
        text := "" } =
      Except.ok { id := uuidVal, url := "https://pay.example/x" } :=
  create_payment_result_spec gwTest "https://t.me/bot" "10.00" "order" "order-1"
    _ _ uuidStr uuidVal "https://pay.example/x"
    (by decide) (by decide) rfl (by decide) (by decide) (by decide) (by decide)

/-- C5: a response body with an absent or empty `transactionId` or an
absent or empty `redirect` makes `_get_payment_data` fail with
`KeyError`; on a 2xx response `create_payment` re-raises exactly the
`_get_payment_data` error unchanged, and a malformed JSON body fails
with `JSONDecodeError`; the model consumes a single provider response,
so no retry exists on any path. -/
theorem create_payment_parse_error_spec :
    (∀ (data : List (String × String)) (oid : String),
      data.lookup "transactionId" = none ∨ data.lookup "transactionId" = some "" ∨
        data.lookup "redirect" = none ∨ data.lookup "redirect" = some "" →
      get_payment_data data oid =
        Except.error (PyError.keyError
          ("Invalid response from Platega API: missing \x27transactionId\x27")) ∨
      get_payment_data data oid =
        Except.error (PyError.keyError
          ("Invalid response from Platega API: missing \x27redirect\x27"))) ∧
    (∀ (gw : PlategaGatewayState) (return_url amount details oid : String)
       (resp : ProviderResponse) (e : String),
      200 ≤ resp.statusCode → resp.statusCode < 300 →
      resp.content = Except.error e →
      handle_create_payment gw return_url amount details oid resp =
        Except.error (PyError.jsonDecodeError e)) ∧
    (∀ (gw : PlategaGatewayState) (return_url amount details oid : String)
       (resp : ProviderResponse) (data : List (String × String)),
      200 ≤ resp.statusCode → resp.statusCode < 300 →
      resp.content = Except.ok data →
      handle_create_payment gw return_url amount details oid resp =
        get_payment_data data oid) := by
  refine ⟨?_, ?_, ?_⟩
  · intro data oid h
    unfold get_payment_data
    rcases h with h | h | h | h
    · rw [h]
      exact Or.inl rfl
    · rw [h]
      exact Or.inl (by simp)
    · cases ht : data.lookup "transactionId" with
      | none => exact Or.inl rfl
      | some t =>
        cases hte : t == "" with
        | true => exact Or.inl (by simp [hte])
        | false => exact Or.inr (by simp [hte, h])
    · cases ht : data.lookup "transactionId" with
      | none => exact Or.inl rfl
      | some t =>
        cases hte : t == "" with
        | true => exact Or.inl (by simp [hte])
        | false => exact Or.inr (by simp [hte, h])
  · intro gw return_url amount details oid resp e h1 h2 hc
    unfold handle_create_payment
    rw [hc]
    simp [h1, h2]
  · intro gw return_url amount details oid resp data h1 h2 hc
    unfold handle_create_payment
    rw [hc]
    simp [h1, h2]

/-- C5 witness: the theorem applied at concrete inputs. -/
theorem create_payment_parse_error_spec_witness :
    (get_payment_data [("redirect", "https://pay.example/x")] "order-1" =
        Except.error (PyError.keyError
          ("Invalid response from Platega API: missing \x27transactionId\x27")) ∨
      get_payment_data [("redirect", "https://pay.example/x")] "order-1" =
        Except.error (PyError.keyError
          ("Invalid response from Platega API: missing \x27redirect\x27"))) ∧
    handle_create_payment gwTest "https://t.me/bot" "10.00" "order" "order-1"
      { statusCode := 200, content := Except.error "unexpected character", text := "not json" } =
      Except.error (PyError.jsonDecodeError "unexpected character") ∧
    handle_create_payment gwTest "https://t.me/bot" "10.00" "order" "order-1"
      { statusCode := 200, content := Except.ok [("redirect", "https://pay.example/x")],
        text := "" } =
      get_payment_data [("redirect", "https://pay.example/x")] "order-1" :=
  ⟨create_payment_parse_error_spec.1 [("redirect", "https://pay.example/x")] "order-1"
    (Or.inl (by decide)),
   create_payment_parse_error_spec.2.1 gwTest "https://t.me/bot" "10.00" "order" "order-1"
    _ "unexpected character" (by decide) (by decide) rfl,
   create_payment_parse_error_spec.2.2 gwTest "https://t.me/bot" "10.00" "order" "order-1"
    _ _ (by decide) (by decide) rfl⟩

/-- Evaluation of `handle_webhook` past verification, a present
non-empty `id` and a successful UUID parse: only the status match
remains. -/
theorem handle_webhook_parsed_eval (gw : PlategaGatewayState) (req : WebhookRequest)
    (hv : verify_webhook_headers gw req = true) (u : String) (tid : UUID)
    (hid : req.body.lookup "id" = some u) (hp : pyUUIDParse u = some tid) :
    handle_webhook gw req =
      (match req.body.lookup "status" with
       | some ("CONFIRMED") => Except.ok (tid, TransactionStatus.COMPLETED)
       | some ("CANCELED") => Except.ok (tid, TransactionStatus.CANCELED)
       | some ("PENDING") =>
           Except.error (PyError.valueError
             ("Unexpected PENDING status in webhook. Transaction ID: " ++ u))
       | _ =>
           Except.error (PyError.valueError
             ("Unsupported status: " ++ pyStrOfOption (req.body.lookup "status")))) := by
  have hue : u ≠ "" := by
    intro h
    subst h
    rw [pyUUIDParse_empty] at hp
    cases hp
  rw [handle_webhook_verified_eval gw req hv u hid hue, hp]

/-- C6: past verification, with a non-empty `id`, any status value other
than `CONFIRMED` and `CANCELED` (including `PENDING` and any
unrecognized string) produces a `ValueError` — one of the three
`ValueError` messages of the function — and never a returned status. -/
theorem webhook_unsupported_status_spec :
    ∀ (gw : PlategaGatewayState) (req : WebhookRequest) (u st : String),
      verify_webhook_headers gw req = true →
      req.body.lookup "id" = some u → u ≠ "" →
      req.body.lookup "status" = some st →
      st ≠ "CONFIRMED" → st ≠ "CANCELED" →
      (handle_webhook gw req =
          Except.error (PyError.valueError ("badly formed hexadecimal UUID string")) ∨
        handle_webhook gw req =
          Except.error (PyError.valueError
            ("Unexpected PENDING status in webhook. Transaction ID: " ++ u)) ∨
        handle_webhook gw req =
          Except.error (PyError.valueError ("Unsupported status: " ++ st))) ∧
      ∀ (r : UUID × TransactionStatus), handle_webhook gw req ≠ Except.ok r := by
  intro gw req u st hv hid hue hst hc1 hc2
  cases hp : pyUUIDParse u with
  | none =>
    rw [handle_webhook_verified_eval gw req hv u hid hue, hp]
    simp
  | some tid =>
    rw [handle_webhook_parsed_eval gw req hv u tid hid hp, hst]
    split
    · simp_all
    · simp_all
    · simp [pyStrOfOption]
    · simp [pyStrOfOption]

/-- C6 witness: the theorem applied at concrete inputs. -/
theorem webhook_unsupported_status_spec_witness :
    (handle_webhook gwTest (reqWithStatus "FOO") =
        Except.error (PyError.valueError ("badly formed hexadecimal UUID string")) ∨
      handle_webhook gwTest (reqWithStatus "FOO") =
        Except.error (PyError.valueError
          ("Unexpected PENDING status in webhook. Transaction ID: " ++ uuidStr)) ∨
      handle_webhook gwTest (reqWithStatus "FOO") =
        Except.error (PyError.valueError ("Unsupported status: " ++ "FOO"))) ∧
    handle_webhook gwTest (reqWithStatus "PENDING") ≠
      Except.ok (uuidVal, TransactionStatus.COMPLETED) :=
  ⟨(webhook_unsupported_status_spec gwTest (reqWithStatus "FOO") uuidStr "FOO"
      (by decide) (by decide) (by decide) (by decide) (by decide) (by decide)).1,
   (webhook_unsupported_status_spec gwTest (reqWithStatus "PENDING") uuidStr "PENDING"
      (by decide) (by decide) (by decide) (by decide) (by decide) (by decide)).2
     (uuidVal, TransactionStatus.COMPLETED)⟩

/-- C7: past verification, an absent or empty `id` field raises the
missing-`id` `ValueError` (its message shows the failure happens at id
extraction, before any status mapping). -/
theorem webhook_missing_id_spec :
    ∀ (gw : PlategaGatewayState) (req : WebhookRequest),
      verify_webhook_headers gw req = true →
      req.body.lookup "id" = none ∨ req.body.lookup "id" = some "" →
      handle_webhook gw req =
        Except.error (PyError.valueError
          ("Required field \x27id\x27 is missing in webhook payload")) := by
  intro gw req hv h
  unfold handle_webhook
  rw [hv]
  simp only [Bool.not_true, Bool.false_eq_true, if_false]
  rcases h with h | h <;> simp [h]

/-- C7 witness: the theorem applied at concrete inputs. -/
theorem webhook_missing_id_spec_witness :
    handle_webhook gwTest { headers := okHeaders, body := [("status", "CONFIRMED")] } =
      Except.error (PyError.valueError
        ("Required field \x27id\x27 is missing in webhook payload")) :=
  webhook_missing_id_spec gwTest { headers := okHeaders, body := [("status", "CONFIRMED")] }
    (by decide) (Or.inl (by decide))

/-- C9: past verification with a valid `id`, a body without any
`status` key falls through to the default match arm and raises the
unsupported-status `ValueError` (rendering the absent value as `None`),
not a missing-field error and not a no-op. -/
theorem webhook_missing_status_spec :
    ∀ (gw : PlategaGatewayState) (req : WebhookRequest) (u : String) (tid : UUID),
      verify_webhook_headers gw req = true →
      req.body.lookup "id" = some u → pyUUIDParse u = some tid →
      req.body.lookup "status" = none →
      handle_webhook gw req =
        Except.error (PyError.valueError ("Unsupported status: None")) := by
  intro gw req u tid hv hid hp hst
  rw [handle_webhook_parsed_eval gw req hv u tid hid hp, hst]
  simp [pyStrOfOption]

/-- C9 witness: the theorem applied at concrete inputs. -/
theorem webhook_missing_status_spec_witness :
    handle_webhook gwTest { headers := okHeaders, body := [("id", uuidStr)] } =
      Except.error (PyError.valueError ("Unsupported status: None")) :=
  webhook_missing_status_spec gwTest { headers := okHeaders, body := [("id", uuidStr)] }
    uuidStr uuidVal (by decide) (by decide) (by decide) (by decide)

/-- C10: past verification, a non-empty `id` that is not a well-formed
UUID string raises the UUID-parse `ValueError` whatever the status
(`status` is unconstrained, so in particular for `CONFIRMED` and
`CANCELED`), and the call never returns. -/
theorem webhook_invalid_uuid_spec :
    ∀ (gw : PlategaGatewayState) (req : WebhookRequest) (u : String),
      verify_webhook_headers gw req = true →
      req.body.lookup "id" = some u → u ≠ "" → pyUUIDParse u = none →
      handle_webhook gw req =
        Except.error (PyError.valueError ("badly formed hexadecimal UUID string")) := by
  intro gw req u hv hid hue hp
  rw [handle_webhook_verified_eval gw req hv u hid hue, hp]

/-- C10 witness: the theorem applied at concrete inputs. -/
theorem webhook_invalid_uuid_spec_witness :
    handle_webhook gwTest
        { headers := okHeaders, body := [("id", "not-a-uuid"), ("status", "CONFIRMED")] } =
      Except.error (PyError.valueError ("badly formed hexadecimal UUID string")) :=
  webhook_invalid_uuid_spec gwTest
    { headers := okHeaders, body := [("id", "not-a-uuid"), ("status", "CONFIRMED")] }
    "not-a-uuid" (by decide) (by decide) (by decide) (by decide)
